import Mathlib

/-!
# Verification of the hydra delegated-execution kernel

Shallow embedding of `hydra_kernel/kernel.py` and
`ansible/files/hydra_agent.py`, with theorems settling the spec claims.

Modelling conventions:
* Jupyter messages are records carrying the `msg_type` header field and the
  content fields the code inspects (`execution_state` for status events,
  `status` for execute replies) plus an opaque `payload` tag so that distinct
  contents are distinguishable.
* The `session.send` calls to the iopub socket and to the shell streams are
  modelled by appending the forwarded message to the corresponding
  output list.
* Wall-clock time in the bootstrap agent is modelled at the granularity of
  its own polling interval: iteration `n` of the waiting loop happens at
  `100 * n` milliseconds.
-/

/-- Message content, restricted to the fields `kernel.py` actually reads:
`content["execution_state"]` (status messages, line 152),
`content["status"]` (execute replies, line 299), plus an opaque payload tag
standing for the rest of the dictionary. -/
structure Content where
  execution_state : String
  status : String
  payload : Nat
deriving DecidableEq, Repr

/-- A message as seen by the channel handlers: the `msg_type` header field
and the content (`msg["header"]["msg_type"]`, `msg.get("content")`). -/
structure Message where
  msg_type : String
  content : Content
deriving DecidableEq, Repr

/-- State of a `ProxyComms` object (`kernel.py` lines 124-176) together with
the messages it has re-emitted.  `kernel_idle` is `self._kernel_idle`,
`reply_content_raw` is `self._reply_content`; `iopub_sent` records the
messages sent to the iopub socket by `on_iopub_message`, and `shells_sent`
records the messages forwarded to every control sink (`self.shells`) by
`on_shell_message` (each sink receives the same sequence, so one list
models the set of messages forwarded to control sinks). -/
structure ProxyComms where
  kernel_idle : Bool
  reply_content_raw : Option Content
  iopub_sent : List Message
  shells_sent : List Message
deriving DecidableEq, Repr

/-- `ProxyComms.__init__`: `_reply_content = None`, `_kernel_idle = False`. -/
def ProxyComms.init : ProxyComms :=
  { kernel_idle := false
    reply_content_raw := none
    iopub_sent := []
    shells_sent := [] }

/-- The `reply_content` property (lines 134-138): `None` while the kernel has
not been observed idle, otherwise the recorded `_reply_content`. -/
def ProxyComms.reply_content (p : ProxyComms) : Option Content :=
  if ¬ p.kernel_idle then none else p.reply_content_raw

/-- `on_iopub_message` (lines 140-154): re-emit the message to the iopub
socket, then set `_kernel_idle` when a status message reports the
`idle` execution state. -/
def ProxyComms.on_iopub_message (p : ProxyComms) (msg : Message) : ProxyComms :=
  let p := { p with iopub_sent := p.iopub_sent ++ [msg] }
  if msg.msg_type = "status" ∧ msg.content.execution_state = "idle" then
    { p with kernel_idle := true }
  else
    p

/-- `on_shell_message` (lines 156-175): drop `execute_request` echoes
entirely; forward every other message to each control sink; record the
content of an `execute_reply` as the reply payload. -/
def ProxyComms.on_shell_message (p : ProxyComms) (msg : Message) : ProxyComms :=
  if msg.msg_type = "execute_request" then
    p
  else
    let p := { p with shells_sent := p.shells_sent ++ [msg] }
    if msg.msg_type = "execute_reply" then
      { p with reply_content_raw := some msg.content }
    else
      p

/-- One inbound event for an in-flight delegated request: a message arriving
on the delegated engine's iopub channel or on its shell channel.  The two
channels are serviced by independent readers, so a run is an arbitrary
interleaving of the two kinds. -/
inductive ProxyEvent where
  | iopub (msg : Message)
  | shell (msg : Message)
deriving DecidableEq, Repr

/-- Dispatch one event to the corresponding piped handler. -/
def ProxyComms.step (p : ProxyComms) : ProxyEvent → ProxyComms
  | .iopub msg => p.on_iopub_message msg
  | .shell msg => p.on_shell_message msg

/-- Run a whole interleaving of channel events through the proxy. -/
def ProxyComms.run (p : ProxyComms) (events : List ProxyEvent) : ProxyComms :=
  events.foldl ProxyComms.step p

/-- A status message announcing the idle execution state. -/
def idleStatusMsg : Message :=
  { msg_type := "status", content := { execution_state := "idle", status := "", payload := 0 } }

/-- An execute reply carrying content `c`. -/
def executeReplyMsg (c : Content) : Message :=
  { msg_type := "execute_reply", content := c }

/-- State of the dispatcher's kernel cache (`HydraKernel._kernels`,
line 210): the association from binding name to the spawned handle, plus
instrumentation observing the lifecycle: `spawn_count` counts the calls to
`spawn_kernel` and `next_handle` supplies the identity of the next handle a
spawn would create (each spawn yields a fresh handle). -/
structure KernelRegistry where
  kernels : List (String × Nat)
  spawn_count : Nat
  next_handle : Nat
deriving DecidableEq, Repr

/-- The ensure path of `execute_request` (lines 269-278): if the binding
name is not in `self._kernels`, spawn a sub-kernel and cache it under the
name; then return the cached entry for the name. -/
def KernelRegistry.ensure (st : KernelRegistry) (name : String) : KernelRegistry × Nat :=
  match st.kernels.lookup name with
  | some handle => (st, handle)
  | none =>
    let handle := st.next_handle
    ({ kernels := (name, handle) :: st.kernels
       spawn_count := st.spawn_count + 1
       next_handle := handle + 1 }, handle)

/-- `ensure` repeated `n` times for a fixed name, collecting the handles
returned to each of the `n` delegated requests. -/
def KernelRegistry.ensureN : KernelRegistry → String → Nat → KernelRegistry × List Nat
  | st, _, 0 => (st, [])
  | st, name, n + 1 =>
    let res := st.ensure name
    let rest := KernelRegistry.ensureN res.1 name n
    (rest.1, res.2 :: rest.2)

/-- The dispatcher's abort decision (`execute_request` line 299): abort the
caller's queues exactly when the request was not silent, the recorded
reply's status is `"error"`, and stop-on-error is set.  `silent` is
`content["silent"]`; `stop_on_error` is `content.get("stop_on_error", True)`
(so `none` models an absent key, defaulting to `True`). -/
def abortsQueues (silent : Bool) (stop_on_error : Option Bool) (reply : Content) : Bool :=
  !silent && (reply.status == "error") && stop_on_error.getD true

/-- A `HydraChannel` (lines 38-51): a threaded channel whose
`call_handlers` dispatches to the piped handler list `self._pipes`.
Handlers are abstract (`H`). -/
structure HydraChannel (H : Type) where
  pipes : List H
deriving Repr

/-- `HydraChannel.pipe` (lines 47-48): append a handler. -/
def HydraChannel.pipe {H : Type} (ch : HydraChannel H) (handler : H) : HydraChannel H :=
  { ch with pipes := ch.pipes ++ [handler] }

/-- `HydraChannel.unpipe` (lines 50-51): `self._pipes = []`. -/
def HydraChannel.unpipe {H : Type} (ch : HydraChannel H) : HydraChannel H :=
  { ch with pipes := [] }

/-- The shell and iopub channels of a delegated engine's client, as touched
by the completion epilogue of `execute_request`. -/
structure ClientChannels (H : Type) where
  iopub_channel : HydraChannel H
  shell_channel : HydraChannel H
deriving Repr

/-- The unsubscription epilogue of `execute_request` (lines 296-297):
`kc.iopub_channel.unpipe(); kc.shell_channel.unpipe()`. -/
def routeUnsubscribe {H : Type} (kc : ClientChannels H) : ClientChannels H :=
  { iopub_channel := kc.iopub_channel.unpipe
    shell_channel := kc.shell_channel.unpipe }

/-- Result of the bootstrap agent (`hydra_agent.py`): either the success
path (print the pid, print the descriptor contents) or the `TimeoutError`
raised inside the polling loop, carrying its message. -/
inductive BootstrapResult where
  | success (pid : Nat) (descriptor : String)
  | failure (msg : String)
deriving DecidableEq, Repr

/-- The message of the `TimeoutError` raised by `hydra_agent.py` lines
52-58, given `ret = kernel.poll()`.  Note the faithful shadowing: the
`Kernel failed with status …` message assigned when `ret is not None`
(line 54) is unconditionally overwritten by the assignment on line 55
(the source lacks an `else`), so the raised message never carries the
exit status. -/
def timeoutMessage (ret : Option Int) (log_to_file : Bool) (log_file : String) : String :=
  let msg :=
    match ret with
    | some r => "Kernel failed with status " ++ toString r ++ "."
    | none => ""
  let msg := "Failed to find connection file, did the kernel fail to start?"
  let msg := if log_to_file then msg ++ " See " ++ log_file ++ " for details." else msg
  msg

/-- The polling loop of `hydra_agent.py` lines 49-59 for a *numeric*
`args.timeout`, at the granularity of the loop's own 100 ms sleep:
iteration `n` runs at `100 * n` ms after `start`.  `fileExists n` is
`os.path.exists(connection_file)` at iteration `n`, `pollStatus n` is
`kernel.poll()` there (`none` = process still alive).  Returns the
iteration at which the loop exited together with the outcome; on success
the agent goes on to emit `pid` and the descriptor contents.

`args.timeout` is numeric only when `--timeout` was not supplied: the
argparse declaration on line 29 has no `type=`, so the un-supplied default
is the int `10` (here `timeoutMs = 10000`) while a caller-supplied value
stays a command-line string — that case is modelled by `agentWaitTyped`
below, which carries `args.timeout` at its true type. -/
def agentWait (fileExists : Nat → Bool) (pollStatus : Nat → Option Int)
    (timeoutMs : Nat) (log_to_file : Bool) (log_file : String)
    (pid : Nat) (descriptor : String) (n : Nat) : Nat × BootstrapResult :=
  if fileExists n then
    (n, .success pid descriptor)
  else if timeoutMs < 100 * n then
    (n, .failure (timeoutMessage (pollStatus n) log_to_file log_file))
  else
    agentWait fileExists pollStatus timeoutMs log_to_file log_file pid descriptor (n + 1)
termination_by timeoutMs + 100 - 100 * n
decreasing_by simp_wf; omega

/-- `args.timeout` at the type argparse actually gives it: the `--timeout`
declaration (`hydra_agent.py` line 29) has `default=10` but no `type=`, so
the un-supplied default is the int `10` (seconds) while any caller-supplied
value arrives as the raw command-line string. -/
inductive TimeoutArg where
  | defaultInt (seconds : Nat)
  | suppliedStr (raw : String)
deriving DecidableEq, Repr

/-- The numeric bound (in ms) a `TimeoutArg` imposes on the loop: the int
default in milliseconds; a string never yields a bound (the comparison
against it raises before any bound applies). -/
def TimeoutArg.ms : TimeoutArg → Nat
  | .defaultInt seconds => 1000 * seconds
  | .suppliedStr _ => 0

/-- Outcome of the agent with the crash path visible: the success output,
the raised `TimeoutError`, or an uncaught `TypeError` escaping from the
line-51 comparison. -/
inductive AgentOutcome where
  | success (pid : Nat) (descriptor : String)
  | timeoutFailure (msg : String)
  | typeError (msg : String)
deriving DecidableEq, Repr

/-- The polling loop of `hydra_agent.py` lines 49-59 with `args.timeout`
carried at its true type.  Line 51 compares
`time.perf_counter() - start > args.timeout`: against the int default this
is the numeric comparison of `agentWait`; against a caller-supplied string
Python 3 raises `TypeError` (floats and strings do not order), so the very
first loop iteration crashes before `time.sleep` ever runs.  (CPython's
message quotes the two type names; the quotes are elided here.) -/
def agentWaitTyped (fileExists : Nat → Bool) (pollStatus : Nat → Option Int)
    (timeout : TimeoutArg) (log_to_file : Bool) (log_file : String)
    (pid : Nat) (descriptor : String) (n : Nat) : Nat × AgentOutcome :=
  if fileExists n then
    (n, .success pid descriptor)
  else
    match timeout with
    | .suppliedStr _ =>
        (n, .typeError "TypeError: comparison not supported between instances of float and str")
    | .defaultInt seconds =>
        if 1000 * seconds < 100 * n then
          (n, .timeoutFailure (timeoutMessage (pollStatus n) log_to_file log_file))
        else
          agentWaitTyped fileExists pollStatus (.defaultInt seconds) log_to_file log_file
            pid descriptor (n + 1)
termination_by TimeoutArg.ms timeout + 100 - 100 * n
decreasing_by simp_wf; simp [TimeoutArg.ms]; omega

/-- A JSON document / value, as far as the spawn-result plumbing goes:
bare numbers, strings, and objects. -/
inductive JsonDoc where
  | num (n : Nat)
  | str (s : String)
  | obj (fields : List (String × JsonDoc))

/-- The bootstrap agent's standard output on success (`hydra_agent.py`
lines 61-63): `print(kernel.pid)` then `print(f.read())` — i.e. a stream of
two JSON documents, the bare pid number followed by the descriptor
document. -/
def agentStdout (pid : Nat) (descriptor : JsonDoc) : List JsonDoc :=
  [.num pid, descriptor]

/-- Python's `json.load`: parses the stream as exactly one document, raising
`JSONDecodeError` (`Extra data`) when trailing documents follow and on empty
input.  Modelled at document granularity. -/
def jsonLoad : List JsonDoc → Option JsonDoc
  | [doc] => some doc
  | _ => none

/-- `res["connection"]`: key subscription succeeds only on an object
carrying the key. -/
def JsonDoc.getKey : JsonDoc → String → Option JsonDoc
  | .num _, _ => none
  | .str _, _ => none
  | .obj fields, key => fields.lookup key

/-- The parse step of `HydraKernelManager.pre_start_kernel` lines 87-89:
`res = json.load(stdout)` followed by `res["connection"]` (fed to
`load_connection_info`).  `none` models the raised exception. -/
def preStartParseConnection (stdout : List JsonDoc) : Option JsonDoc :=
  match jsonLoad stdout with
  | none => none
  | some res => res.getKey "connection"

/-- A connection descriptor document with the five endpoint fields plus
transport and key, as a kernel connection file holds. -/
def sampleConnectionFile : JsonDoc :=
  .obj [("shell_port", .num 56705), ("iopub_port", .num 56706),
        ("stdin_port", .num 56707), ("hb_port", .num 56708),
        ("control_port", .num 56709), ("transport", .str "tcp"),
        ("ip", .str "127.0.0.1"), ("key", .str "a0436f6c")]

/-- An observable action of the spec-resolution phase of
`pre_start_kernel` (lines 76-81): a `get_kernel_spec` lookup or an
`install_kernel_spec` call, each for a kernel name. -/
inductive SpecAction where
  | lookup (name : String)
  | install (name : String)
deriving DecidableEq, Repr

/-- The spec-resolution phase of `pre_start_kernel` lines 76-81 as the
trace of actions it performs: one lookup; when it raises `NoSuchKernel`
(the name is not among the installed specs), one install — and nothing
more: the lookup is not retried, the method proceeds to the spawn. -/
def pre_start_spec (installed : List String) (kernel_name : String) : List SpecAction :=
  if kernel_name ∈ installed then
    [.lookup kernel_name]
  else
    [.lookup kernel_name, .install kernel_name]

/-- A Python exception as far as `spawn_kernel`'s `except` clause is
concerned: either a `RuntimeError` or an exception of any other class
(tagged with its name). -/
inductive PyError where
  | runtimeError
  | otherError (name : String)
deriving DecidableEq, Repr

/-- Outcome of `spawn_kernel`: whether `km.shutdown_kernel()` ran, and the
value returned or exception propagated. -/
structure SpawnOutcome where
  shutdown_called : Bool
  result : Except PyError Unit
deriving Repr

/-- `spawn_kernel` (`kernel.py` lines 178-190): `km.client()` and
`kc.start_channels(...)` run inside `try`; `except RuntimeError` shuts the
kernel down and re-raises; any other exception class propagates uncaught.
`startChannels` is the combined outcome of the `try` body. -/
def spawn_kernel (startChannels : Except PyError Unit) : SpawnOutcome :=
  match startChannels with
  | .ok _ => { shutdown_called := false, result := .ok () }
  | .error .runtimeError => { shutdown_called := true, result := .error .runtimeError }
  | .error e => { shutdown_called := false, result := .error e }

/-- **C1.** The reply payload is observable through `reply_content` (non-`None`,
which is what ends the dispatcher's busy-wait) iff the kernel has been observed
idle and a reply payload has been recorded; and for any reply content, the
idle-then-reply interleaving and the reply-then-idle interleaving both complete
with the same observable reply payload. -/
theorem proxy_reply_content_iff_and_order_independent :
    (∀ p : ProxyComms,
      p.reply_content ≠ none ↔ (p.kernel_idle = true ∧ p.reply_content_raw ≠ none))
    ∧ ∀ c : Content,
      (ProxyComms.init.run [.iopub idleStatusMsg, .shell (executeReplyMsg c)]).reply_content
        = some c
      ∧ (ProxyComms.init.run [.shell (executeReplyMsg c), .iopub idleStatusMsg]).reply_content
        = some c := by
  constructor
  · intro p
    unfold ProxyComms.reply_content
    cases h : p.kernel_idle <;> simp [h]
  · intro c
    constructor <;>
      simp [ProxyComms.run, ProxyComms.step, ProxyComms.init, ProxyComms.reply_content,
        ProxyComms.on_iopub_message, ProxyComms.on_shell_message,
        idleStatusMsg, executeReplyMsg]

theorem ensure_cached {st : KernelRegistry} {name : String} {h : Nat}
    (hc : st.kernels.lookup name = some h) : st.ensure name = (st, h) := by
  simp [KernelRegistry.ensure, hc]

theorem ensureN_cached (st : KernelRegistry) (name : String) (h : Nat)
    (hc : st.kernels.lookup name = some h) (n : Nat) :
    st.ensureN name n = (st, List.replicate n h) := by
  induction n with
  | zero => simp [KernelRegistry.ensureN]
  | succ n ih =>
    simp [KernelRegistry.ensureN, ensure_cached hc, ih, List.replicate_succ]

/-- **C4.** If the binding name is not yet cached, dispatching `n + 1`
delegated requests tagged with it performs exactly one spawn (the spawn
count rises by exactly one) and hands every one of the `n + 1` requests the
very same handle (the one created by the first call). -/
theorem ensure_idempotent {st : KernelRegistry} {name : String}
    (hmiss : st.kernels.lookup name = none) (n : Nat) :
    (st.ensureN name (n + 1)).1.spawn_count = st.spawn_count + 1
    ∧ (st.ensureN name (n + 1)).2 = List.replicate (n + 1) st.next_handle := by
  have hstep : st.ensure name =
      ({ kernels := (name, st.next_handle) :: st.kernels
         spawn_count := st.spawn_count + 1
         next_handle := st.next_handle + 1 }, st.next_handle) := by
    simp [KernelRegistry.ensure, hmiss]
  have hcached :
      ((name, st.next_handle) :: st.kernels).lookup name = some st.next_handle := by
    simp [List.lookup]
  have hrest := @ensureN_cached
    ⟨(name, st.next_handle) :: st.kernels, st.spawn_count + 1, st.next_handle + 1⟩
    name st.next_handle hcached n
  constructor
  · simp [KernelRegistry.ensureN, hstep, hrest]
  · simp [KernelRegistry.ensureN, hstep, hrest, List.replicate_succ]

/-- Concrete instantiation of `ensure_idempotent`: an empty registry, three
requests for the name `nodeA`. -/
theorem ensure_idempotent_witness :
    (KernelRegistry.ensureN ⟨[], 0, 0⟩ "nodeA" 3).1.spawn_count = 0 + 1
    ∧ (KernelRegistry.ensureN ⟨[], 0, 0⟩ "nodeA" 3).2 = List.replicate 3 0 :=
  @ensure_idempotent ⟨[], 0, 0⟩ "nodeA" (by simp [List.lookup]) 2

theorem shells_sent_no_echo_step (p : ProxyComms) (e : ProxyEvent)
    (h : p.shells_sent.all (fun m => m.msg_type != "execute_request") = true) :
    (p.step e).shells_sent.all (fun m => m.msg_type != "execute_request") = true := by
  cases e with
  | iopub msg =>
    simp only [ProxyComms.step, ProxyComms.on_iopub_message]
    split <;> simpa using h
  | shell msg =>
    simp only [ProxyComms.step, ProxyComms.on_shell_message]
    split
    · exact h
    · rename_i hne
      split <;> simp_all

theorem shells_sent_no_echo_run (p : ProxyComms) (events : List ProxyEvent)
    (h : p.shells_sent.all (fun m => m.msg_type != "execute_request") = true) :
    (p.run events).shells_sent.all (fun m => m.msg_type != "execute_request") = true := by
  induction events generalizing p with
  | nil => simpa [ProxyComms.run] using h
  | cons e rest ih =>
    simpa [ProxyComms.run] using ih (p.step e) (shells_sent_no_echo_step p e h)

/-- **C5.** Over any run of the proxy (any interleaving of iopub and shell
messages received from the delegated engine), the list of messages forwarded
to the control sinks never contains an `execute_request` message: the
control-handler suppresses the outbound execution-request echo. -/
theorem no_execute_request_forwarded (events : List ProxyEvent) :
    ((ProxyComms.init.run events).shells_sent.all
      (fun m => m.msg_type != "execute_request")) = true :=
  shells_sent_no_echo_run ProxyComms.init events (by simp [ProxyComms.init])

/-- **C6.** The dispatcher aborts the original caller's queued execution
requests iff the request was not silent, the recorded reply's status is
`"error"`, and the (defaulted) stop-on-error flag is set; in every other
combination the queue is left alone. -/
theorem abort_iff_error_policy (silent : Bool) (stop_on_error : Option Bool)
    (reply : Content) :
    abortsQueues silent stop_on_error reply = true
      ↔ (silent = false ∧ reply.status = "error" ∧ stop_on_error.getD true = true) := by
  cases silent <;> simp [abortsQueues]

/-- **C10.** The unsubscription epilogue clears the entire handler list of
both of the delegated engine's channels: whatever handlers were piped — by
this proxy or by anyone else — both the iopub and the shell channel end with
zero subscribers. -/
theorem unpipe_clears_all_handlers {H : Type} (kc : ClientChannels H) :
    (routeUnsubscribe kc).iopub_channel.pipes = []
    ∧ (routeUnsubscribe kc).shell_channel.pipes = [] :=
  ⟨rfl, rfl⟩

theorem agentWait_no_file (pollStatus : Nat → Option Int) (timeoutMs : Nat)
    (log_to_file : Bool) (log_file : String) (pid : Nat) (descriptor : String) :
    ∀ k n, timeoutMs / 100 + 1 - n ≤ k → n ≤ timeoutMs / 100 + 1 →
    agentWait (fun _ => false) pollStatus timeoutMs log_to_file log_file pid descriptor n
      = (timeoutMs / 100 + 1,
         BootstrapResult.failure
           (timeoutMessage (pollStatus (timeoutMs / 100 + 1)) log_to_file log_file)) := by
  intro k
  induction k with
  | zero =>
    intro n h1 h2
    have hn : n = timeoutMs / 100 + 1 := by omega
    subst hn
    unfold agentWait
    have ht : timeoutMs < 100 * (timeoutMs / 100 + 1) := by omega
    simp [ht]
  | succ k ih =>
    intro n h1 h2
    by_cases hn : n = timeoutMs / 100 + 1
    · subst hn
      unfold agentWait
      have ht : timeoutMs < 100 * (timeoutMs / 100 + 1) := by omega
      simp [ht]
    · have hle : ¬ (timeoutMs < 100 * n) := by omega
      conv_lhs => unfold agentWait
      simp only [Bool.false_eq_true, if_false, hle]
      exact ih (n + 1) (by omega) (by omega)

theorem agentWaitTyped_default_no_file (pollStatus : Nat → Option Int) (seconds : Nat)
    (log_to_file : Bool) (log_file : String) (pid : Nat) (descriptor : String) :
    ∀ k n, 1000 * seconds / 100 + 1 - n ≤ k → n ≤ 1000 * seconds / 100 + 1 →
    agentWaitTyped (fun _ => false) pollStatus (.defaultInt seconds) log_to_file log_file
        pid descriptor n
      = (1000 * seconds / 100 + 1,
         AgentOutcome.timeoutFailure
           (timeoutMessage (pollStatus (1000 * seconds / 100 + 1)) log_to_file log_file)) := by
  intro k
  induction k with
  | zero =>
    intro n h1 h2
    have hn : n = 1000 * seconds / 100 + 1 := by omega
    subst hn
    unfold agentWaitTyped
    have ht : 1000 * seconds < 100 * (1000 * seconds / 100 + 1) := by omega
    simp [ht]
  | succ k ih =>
    intro n h1 h2
    by_cases hn : n = 1000 * seconds / 100 + 1
    · subst hn
      unfold agentWaitTyped
      have ht : 1000 * seconds < 100 * (1000 * seconds / 100 + 1) := by omega
      simp [ht]
    · have hle : ¬ (1000 * seconds < 100 * n) := by omega
      conv_lhs => unfold agentWaitTyped
      simp only [Bool.false_eq_true, if_false, hle]
      exact ih (n + 1) (by omega) (by omega)

/-- **C8 (divergence, code evaluated at the failing input).** For any
caller-supplied `--timeout` value (which argparse leaves a string, the
declaration having no `type=`), the first poll iteration crashes with a
`TypeError` from the `float > str` comparison: the agent exits at
iteration 0 — elapsed ≈ 0 ms, not ≈ the timeout — and never raises the
claimed `TimeoutError`.  Only the un-supplied int default ever reaches
the `TimeoutError` path (second conjunct). -/
theorem bootstrap_supplied_timeout_type_error :
    (∀ (raw : String) (pollStatus : Nat → Option Int) (log_to_file : Bool)
        (log_file : String) (pid : Nat) (descriptor : String),
      agentWaitTyped (fun _ => false) pollStatus (TimeoutArg.suppliedStr raw)
          log_to_file log_file pid descriptor 0
        = (0, AgentOutcome.typeError
            "TypeError: comparison not supported between instances of float and str"))
    ∧ ∀ (seconds : Nat) (log_to_file : Bool) (log_file : String)
        (pid : Nat) (descriptor : String),
      agentWaitTyped (fun _ => false) (fun _ => none) (TimeoutArg.defaultInt seconds)
          log_to_file log_file pid descriptor 0
        = (1000 * seconds / 100 + 1,
           AgentOutcome.timeoutFailure (timeoutMessage none log_to_file log_file)) := by
  constructor
  · intro raw pollStatus log_to_file log_file pid descriptor
    unfold agentWaitTyped
    simp
  · intro seconds log_to_file log_file pid descriptor
    exact agentWaitTyped_default_no_file (fun _ => none) seconds log_to_file log_file
      pid descriptor (1000 * seconds / 100 + 1) 0 (by omega) (by omega)

/-- **C3 (divergence, code evaluated at the failing input).** The timeout
message is identical no matter what exit status `poll` reports — the
status message computed on line 54 of `hydra_agent.py` is unconditionally
overwritten on line 55 — and concretely, running with the un-supplied
default timeout (the int `10`, i.e. 10000 ms, the one numeric timeout an
execution can have), a process that exited with status 3 before producing
a descriptor yields the generic `Failed to find connection file` error,
not one reporting status 3. -/
theorem bootstrap_exit_status_swallowed :
    (∀ (r₁ r₂ : Int) (log_to_file : Bool) (log_file : String),
      timeoutMessage (some r₁) log_to_file log_file
        = timeoutMessage (some r₂) log_to_file log_file)
    ∧ (agentWait (fun _ => false) (fun _ => some 3) 10000 false "" 4242 "" 0).2
        = BootstrapResult.failure
            "Failed to find connection file, did the kernel fail to start?"
    ∧ "Failed to find connection file, did the kernel fail to start?"
        ≠ "Kernel failed with status 3." := by
  refine ⟨?_, ?_, by decide⟩
  · intro r₁ r₂ log_to_file log_file
    rfl
  · rw [agentWait_no_file (fun _ => some 3) 10000 false "" 4242 ""
      (10000 / 100 + 1) 0 (by omega) (by omega)]
    rfl

/-- **C2 (divergence, code evaluated at the failing input).** The agent's
success output — the bare pid document followed by the descriptor
document — is never parsed into a connection by the manager's
`json.load(stdout)` / `res["connection"]` path: `json.load` rejects the
two-document stream, and even granting a single-document framing, a raw
connection file carries no `connection` key. -/
theorem spawn_result_parse_fails :
    (∀ (pid : Nat) (descriptor : JsonDoc),
      preStartParseConnection (agentStdout pid descriptor) = none)
    ∧ preStartParseConnection [sampleConnectionFile] = none := by
  exact ⟨fun pid descriptor => rfl, rfl⟩

/-- **C7 counterexample.** With the spec for `python3` missing, the
spec-resolution phase of `pre_start_kernel` performs exactly one lookup:
its trace is lookup-then-install, not the
lookup-install-lookup trace the claimed retry would produce. -/
theorem spec_lookup_not_retried :
    (pre_start_spec [] "python3").count (SpecAction.lookup "python3") = 1
    ∧ ¬ (pre_start_spec [] "python3"
        = [SpecAction.lookup "python3", SpecAction.install "python3",
           SpecAction.lookup "python3"]) := by
  decide

/-- **C7 amended.** When the spec is missing the manager recovers by
attempting the install exactly once and performs exactly one lookup (no
retry of the lookup); a spec found on first lookup triggers no install. -/
theorem spec_install_once_no_retry (installed : List String) (name : String) :
    (pre_start_spec installed name).count (SpecAction.lookup name) = 1
    ∧ (pre_start_spec installed name).count (SpecAction.install name)
        = if name ∈ installed then 0 else 1 := by
  by_cases h : name ∈ installed <;>
    simp [pre_start_spec, h, List.count_cons]

/-- **C9 counterexample.** A channel-start failure of an exception class
other than `RuntimeError` propagates out of `spawn_kernel` without
`km.shutdown_kernel()` running: the claimed teardown does not happen for
every failure. -/
theorem spawn_kernel_leaks_on_other_error :
    ¬ ((spawn_kernel (Except.error (PyError.otherError "ZMQError"))).shutdown_called
        = true) := by
  decide

/-- **C9 amended.** Every channel-start failure propagates to the caller,
and the partially-started handle is torn down (`km.shutdown_kernel()`)
exactly when the failure is a `RuntimeError`; a successful start triggers
no teardown. -/
theorem spawn_kernel_teardown_on_runtime_error (e : PyError) :
    (spawn_kernel (Except.error e)).result = Except.error e
    ∧ ((spawn_kernel (Except.error e)).shutdown_called = true ↔ e = PyError.runtimeError)
    ∧ (spawn_kernel (Except.ok ())).shutdown_called = false := by
  cases e <;> simp [spawn_kernel]
